import Mathlib

/-!
Shallow embedding of the Mswasth voice/AI data-entry application
(`src/types.ts`, `src/components/DataTable.tsx`, `src/components/DataEntryForm.tsx`,
`src/App.tsx`) together with proofs about the table pipeline
(filter / sort / paginate), the partner-product-premium cascade, the
save-upsert, the autofill error path, the CSV export and the id invariant.

All PolicyData fields are strings in the source (`types.ts`); the two gender
fields are string unions, modelled as plain strings.
-/

namespace Mswasth

/-- The flat policy record of `src/types.ts` (`interface PolicyData`),
fields in declaration order. -/
structure PolicyData where
  id : String
  partnerName : String
  productDetails : String
  premium : String
  tenure : String
  cseName : String
  branchName : String
  branchCode : String
  region : String
  customerName : String
  gender : String
  dateOfBirth : String
  mobileNumber : String
  customerId : String
  enrolmentDate : String
  savingsAccountNumber : String
  csbCode : String
  d2cRoCode : String
  nomineeName : String
  nomineeDateOfBirth : String
  nomineeRelationship : String
  nomineeMobileNumber : String
  nomineeGender : String
  remarks : String
deriving DecidableEq, Repr

/-- `Object.keys` of a policy record: the field names in declaration order
(JS objects built from the `emptyForm` literal keep this insertion order). -/
def policyKeys : List String :=
  ["id", "partnerName", "productDetails", "premium", "tenure", "cseName",
   "branchName", "branchCode", "region", "customerName", "gender",
   "dateOfBirth", "mobileNumber", "customerId", "enrolmentDate",
   "savingsAccountNumber", "csbCode", "d2cRoCode", "nomineeName",
   "nomineeDateOfBirth", "nomineeRelationship", "nomineeMobileNumber",
   "nomineeGender", "remarks"]

/-- `Object.values` of a policy record, in the same order as `policyKeys`. -/
def policyValues (p : PolicyData) : List String :=
  [p.id, p.partnerName, p.productDetails, p.premium, p.tenure, p.cseName,
   p.branchName, p.branchCode, p.region, p.customerName, p.gender,
   p.dateOfBirth, p.mobileNumber, p.customerId, p.enrolmentDate,
   p.savingsAccountNumber, p.csbCode, p.d2cRoCode, p.nomineeName,
   p.nomineeDateOfBirth, p.nomineeRelationship, p.nomineeMobileNumber,
   p.nomineeGender, p.remarks]

/-- Property access `row[key]` for a policy record; an unknown key is JS
`undefined`, which stringifies paths in this app never reach (the table only
uses `keyof PolicyData`), modelled as `""`. -/
def policyGet (p : PolicyData) (k : String) : String :=
  if k = "id" then p.id
  else if k = "partnerName" then p.partnerName
  else if k = "productDetails" then p.productDetails
  else if k = "premium" then p.premium
  else if k = "tenure" then p.tenure
  else if k = "cseName" then p.cseName
  else if k = "branchName" then p.branchName
  else if k = "branchCode" then p.branchCode
  else if k = "region" then p.region
  else if k = "customerName" then p.customerName
  else if k = "gender" then p.gender
  else if k = "dateOfBirth" then p.dateOfBirth
  else if k = "mobileNumber" then p.mobileNumber
  else if k = "customerId" then p.customerId
  else if k = "enrolmentDate" then p.enrolmentDate
  else if k = "savingsAccountNumber" then p.savingsAccountNumber
  else if k = "csbCode" then p.csbCode
  else if k = "d2cRoCode" then p.d2cRoCode
  else if k = "nomineeName" then p.nomineeName
  else if k = "nomineeDateOfBirth" then p.nomineeDateOfBirth
  else if k = "nomineeRelationship" then p.nomineeRelationship
  else if k = "nomineeMobileNumber" then p.nomineeMobileNumber
  else if k = "nomineeGender" then p.nomineeGender
  else if k = "remarks" then p.remarks
  else ""

/-- JS `s.includes(pat)`: `pat` occurs contiguously inside `s`. -/
def jsIncludes (s pat : String) : Bool := decide (pat.toList <:+: s.toList)

/-- The predicate of `DataTable.filteredData` (DataTable.tsx:66-69):
`Object.values(item).some(val => String(val).toLowerCase().includes(searchTerm.toLowerCase()))`.
`String(val)` is the identity here since every field is already a string. -/
def matchesSearch (searchTerm : String) (item : PolicyData) : Bool :=
  (policyValues item).any (fun val => jsIncludes val.toLower searchTerm.toLower)

/-- `DataTable.filteredData` (DataTable.tsx:65-71). -/
def filteredData (searchTerm : String) (data : List PolicyData) : List PolicyData :=
  data.filter (matchesSearch searchTerm)

/-- The search criterion as the spec words it: some field, lowercased,
contains the lowercased search term as a substring. -/
def specMatches (searchTerm : String) (item : PolicyData) : Prop :=
  ∃ v ∈ policyValues item, searchTerm.toLower.toList <:+: v.toLower.toList

instance (searchTerm : String) : DecidablePred (specMatches searchTerm) := fun item =>
  List.decidableBEx _ (policyValues item)

theorem matchesSearch_iff (searchTerm : String) (item : PolicyData) :
    matchesSearch searchTerm item = true ↔ specMatches searchTerm item := by
  simp [matchesSearch, jsIncludes, specMatches, List.any_eq_true]

/-- C1: the table filter keeps exactly the records for which some field,
lowercased, contains the lowercased search term as a substring, and it keeps
them in their original relative order (the filtered list is a sublist of the
input). -/
theorem c1_filter_keeps_exactly_matching_in_order (searchTerm : String)
    (data : List PolicyData) :
    filteredData searchTerm data = data.filter (fun p => decide (specMatches searchTerm p))
    ∧ (filteredData searchTerm data).Sublist data
    ∧ ∀ p, p ∈ filteredData searchTerm data ↔ p ∈ data ∧ specMatches searchTerm p := by
  have hpred : ∀ p : PolicyData,
      matchesSearch searchTerm p = decide (specMatches searchTerm p) := by
    intro p
    by_cases h : specMatches searchTerm p
    · simp [h, (matchesSearch_iff searchTerm p).2 h]
    · simp only [decide_eq_false h]
      by_contra hb
      exact h ((matchesSearch_iff searchTerm p).1 (by revert hb; cases matchesSearch searchTerm p <;> simp))
  have heq : filteredData searchTerm data
      = data.filter (fun p => decide (specMatches searchTerm p)) := by
    unfold filteredData
    exact List.filter_congr (fun p _ => hpred p)
  refine ⟨heq, ?_, ?_⟩
  · exact List.filter_sublist data
  · intro p
    rw [heq]
    simp [List.mem_filter]

/-! ### Sorting (`DataTable.sortedData`, `DataTable.requestSort`) -/

/-- `keyof PolicyData`, the type of the table's sort key. -/
inductive PKey
  | id | partnerName | productDetails | premium | tenure | cseName
  | branchName | branchCode | region | customerName | gender
  | dateOfBirth | mobileNumber | customerId | enrolmentDate
  | savingsAccountNumber | csbCode | d2cRoCode | nomineeName
  | nomineeDateOfBirth | nomineeRelationship | nomineeMobileNumber
  | nomineeGender | remarks
deriving DecidableEq, Repr

/-- `item[key]` for a statically-known `keyof PolicyData`. -/
def getField (p : PolicyData) : PKey → String
  | .id => p.id
  | .partnerName => p.partnerName
  | .productDetails => p.productDetails
  | .premium => p.premium
  | .tenure => p.tenure
  | .cseName => p.cseName
  | .branchName => p.branchName
  | .branchCode => p.branchCode
  | .region => p.region
  | .customerName => p.customerName
  | .gender => p.gender
  | .dateOfBirth => p.dateOfBirth
  | .mobileNumber => p.mobileNumber
  | .customerId => p.customerId
  | .enrolmentDate => p.enrolmentDate
  | .savingsAccountNumber => p.savingsAccountNumber
  | .csbCode => p.csbCode
  | .d2cRoCode => p.d2cRoCode
  | .nomineeName => p.nomineeName
  | .nomineeDateOfBirth => p.nomineeDateOfBirth
  | .nomineeRelationship => p.nomineeRelationship
  | .nomineeMobileNumber => p.nomineeMobileNumber
  | .nomineeGender => p.nomineeGender
  | .remarks => p.remarks

inductive SortDir
  | ascending
  | descending
deriving DecidableEq, Repr

/-- The `sortConfig` state of the table (DataTable.tsx:61). -/
structure SortConfig where
  key : PKey
  direction : SortDir
deriving DecidableEq, Repr

/-- The comparator passed to `Array.prototype.sort` (DataTable.tsx:76-84):
`-1` when `a[key] < b[key]` (negated for descending), `1` when
`a[key] > b[key]` (negated for descending), `0` otherwise.  JS `<`/`>` on the
string fields is string comparison. -/
def compareFn (cfg : SortConfig) (a b : PolicyData) : Int :=
  if getField a cfg.key < getField b cfg.key then
    (if cfg.direction = SortDir.ascending then -1 else 1)
  else if getField b cfg.key < getField a cfg.key then
    (if cfg.direction = SortDir.ascending then 1 else -1)
  else 0

/-- The (non-strict) order induced by the comparator: `a` may precede `b`
exactly when `compareFn a b ≤ 0`. -/
def sortLe (cfg : SortConfig) (a b : PolicyData) : Bool :=
  decide (compareFn cfg a b ≤ 0)

/-- `DataTable.sortedData` (DataTable.tsx:73-87): a copy of the filtered list,
sorted with the comparator when a sort config is set.  `Array.prototype.sort`
is a stable comparison sort, modelled by `List.mergeSort`. -/
def sortedData (sortConfig : Option SortConfig) (l : List PolicyData) : List PolicyData :=
  match sortConfig with
  | none => l
  | some cfg => l.mergeSort (sortLe cfg)

/-- `DataTable.requestSort` (DataTable.tsx:94-100): direction starts
ascending, flipped to descending only when the same key was already sorted
ascending. -/
def requestSort (sortConfig : Option SortConfig) (key : PKey) : SortConfig :=
  let direction : SortDir :=
    match sortConfig with
    | some c =>
        if c.key = key ∧ c.direction = SortDir.ascending then SortDir.descending
        else SortDir.ascending
    | none => SortDir.ascending
  ⟨key, direction⟩

/-- String comparison on the configured key, per direction, as the spec
words the order of the sorted table. -/
def keyOrder (key : PKey) (dir : SortDir) (a b : PolicyData) : Prop :=
  match dir with
  | .ascending => getField a key ≤ getField b key
  | .descending => getField b key ≤ getField a key

theorem sortLe_iff (cfg : SortConfig) (a b : PolicyData) :
    sortLe cfg a b = true ↔ keyOrder cfg.key cfg.direction a b := by
  rcases cfg with ⟨k, d⟩
  unfold sortLe compareFn keyOrder
  by_cases hab : getField a k < getField b k
  · cases d <;> simp [hab, le_of_lt hab, not_le.mpr hab]
  · by_cases hba : getField b k < getField a k
    · cases d <;> simp [hab, hba, le_of_lt hba, not_le.mpr hba]
    · cases d <;> simp [hab, hba, le_of_not_lt hab, le_of_not_lt hba]

theorem sortLe_trans (cfg : SortConfig) (a b c : PolicyData) :
    sortLe cfg a b → sortLe cfg b c → sortLe cfg a c := by
  intro h1 h2
  rw [sortLe_iff] at h1 h2 ⊢
  rcases cfg with ⟨k, d⟩
  cases d
  · exact le_trans h1 h2
  · exact le_trans h2 h1

theorem sortLe_total (cfg : SortConfig) (a b : PolicyData) :
    sortLe cfg a b || sortLe cfg b a := by
  rw [Bool.or_eq_true, sortLe_iff, sortLe_iff]
  rcases cfg with ⟨k, d⟩
  cases d <;> exact le_total _ _

/-- C2: with a sort config set, the sorted table is a permutation of the
filtered list, ordered by string comparison on the configured key in the
configured direction; and requesting a sort on a key yields that key with
direction descending exactly when that same key was already sorted ascending,
ascending in every other case. -/
theorem c2_sorted_perm_ordered_and_toggle (cfg : SortConfig) (l : List PolicyData)
    (old : Option SortConfig) (key : PKey) :
    (sortedData (some cfg) l).Perm l
    ∧ (sortedData (some cfg) l).Pairwise (keyOrder cfg.key cfg.direction)
    ∧ (requestSort old key).key = key
    ∧ ((requestSort old key).direction = SortDir.descending ↔
        old = some ⟨key, SortDir.ascending⟩) := by
  refine ⟨List.mergeSort_perm l (sortLe cfg), ?_, rfl, ?_⟩
  · have h := List.sorted_mergeSort
      (fun a b c => sortLe_trans cfg a b c) (fun a b => sortLe_total cfg a b) l
    exact h.imp (fun hab => (sortLe_iff cfg _ _).1 hab)
  · cases old with
    | none => simp [requestSort]
    | some c =>
        rcases c with ⟨ck, cd⟩
        by_cases hk : ck = key
        · subst hk
          cases cd <;> simp [requestSort]
        · cases cd <;> simp [requestSort, hk, Ne.symm hk]

/-! ### Pagination (`DataTable.paginatedData`, `DataTable.totalPages`) -/

/-- `DataTable.paginatedData` (DataTable.tsx:89-92):
`sortedData.slice(startIndex, startIndex + itemsPerPage)` with
`startIndex = (currentPage - 1) * itemsPerPage`.  `slice(a, b)` drops the
first `a` elements and keeps at most `b - a` of the rest. -/
def paginatedData (currentPage itemsPerPage : Nat) (sorted : List PolicyData) :
    List PolicyData :=
  (sorted.drop ((currentPage - 1) * itemsPerPage)).take itemsPerPage

/-- `DataTable.totalPages` (DataTable.tsx:102):
`Math.ceil(sortedData.length / itemsPerPage)`, as ceiling division on `Nat`
(`itemsPerPage` is always one of 10/20/50, hence positive). -/
def totalPages (itemsPerPage : Nat) (sorted : List PolicyData) : Nat :=
  (sorted.length + itemsPerPage - 1) / itemsPerPage

/-- A sample record used to instantiate theorems with hypotheses. -/
def samplePolicy : PolicyData :=
  { id := "2024-01-01T00:00:00.000Z", partnerName := "P1", productDetails := "Prod1"
    premium := "500", tenure := "1", cseName := "Asha", branchName := "Main"
    branchCode := "B01", region := "North", customerName := "Ravi Kumar"
    gender := "Male", dateOfBirth := "1990-01-01", mobileNumber := "9999999999"
    customerId := "C123", enrolmentDate := "2024-01-01"
    savingsAccountNumber := "SB001", csbCode := "", d2cRoCode := ""
    nomineeName := "Sita", nomineeDateOfBirth := "1992-02-02"
    nomineeRelationship := "Spouse", nomineeMobileNumber := ""
    nomineeGender := "Female", remarks := "" }

/-- C3: for page `p ≥ 1` and page size `n ∈ {10, 20, 50}`, the paginated view
is exactly the slice of the sorted list from index `(p-1)*n` up to but not
including `p*n` (hence at most `n` rows), and the total page count is the
ceiling of the length divided by `n` (characterized as the least `k` with
`length ≤ n * k`). -/
theorem c3_pagination_slice_and_page_count (p n : Nat) (l : List PolicyData)
    (hp : 1 ≤ p) (hn : n = 10 ∨ n = 20 ∨ n = 50) :
    paginatedData p n l = (l.take (p * n)).drop ((p - 1) * n)
    ∧ (paginatedData p n l).length ≤ n
    ∧ (∀ k, totalPages n l ≤ k ↔ l.length ≤ n * k) := by
  have hpos : 0 < n := by rcases hn with h | h | h <;> omega
  refine ⟨?_, ?_, ?_⟩
  · unfold paginatedData
    rw [List.take_drop]
    congr 1
    obtain ⟨q, rfl⟩ : ∃ q, p = q + 1 := ⟨p - 1, by omega⟩
    have : (q + 1) * n = q * n + n := by ring
    simp [this]
  · unfold paginatedData
    exact le_trans (List.length_take_le _ _) (le_refl n)
  · intro k
    unfold totalPages
    rw [Nat.div_le_iff_le_mul_add_pred hpos]
    constructor <;> intro h <;> omega

/-- C3 witness: concrete instantiation at page 2, page size 10, a 15-row
list. -/
theorem c3_pagination_witness :
    paginatedData 2 10 (List.replicate 15 samplePolicy)
      = ((List.replicate 15 samplePolicy).take 20).drop 10
    ∧ (paginatedData 2 10 (List.replicate 15 samplePolicy)).length ≤ 10
    ∧ totalPages 10 (List.replicate 15 samplePolicy) = 2 := by
  obtain ⟨h1, h2, h3⟩ := c3_pagination_slice_and_page_count 2 10
    (List.replicate 15 samplePolicy) (by decide) (Or.inl rfl)
  refine ⟨h1, h2, ?_⟩
  have hle : totalPages 10 (List.replicate 15 samplePolicy) ≤ 2 :=
    (h3 2).2 (by simp)
  have hgt : ¬ totalPages 10 (List.replicate 15 samplePolicy) ≤ 1 := by
    rw [h3 1]
    simp
  omega

/-! ### Partner / product / premium cascade (`DataEntryForm.tsx`)

`partnerData` lives in `constants.ts` (imported by the form); its shape is a
three-level static object: partner name ↦ product name ↦ list of
`{ Premium, Tenure, "CSE Name" }` entries.  The handlers are proved for an
arbitrary table of that shape, modelled as association lists preserving the
JS object key order. -/

/-- One entry of the premium list: `{ Premium: number, Tenure: number,
"CSE Name": string }`. -/
structure PremiumEntry where
  Premium : Int
  Tenure : Int
  cseName : String
deriving DecidableEq, Repr

/-- The `partnerData` table shape: partner ↦ (product ↦ premium entries). -/
abbrev PartnerTable := List (String × List (String × List PremiumEntry))

/-- Value of the leading decimal digits of a character list, `none` when there
is no digit. -/
def leadingDigitsVal (cs : List Char) : Option Nat :=
  let ds := cs.takeWhile (fun c => c.isDigit)
  if ds.isEmpty then none
  else some (ds.foldl (fun a c => a * 10 + (c.toNat - 48)) 0)

/-- JS `parseInt(value, 10)`: skip leading whitespace, optional sign, value of
the leading digits; `NaN` (here `none`) when no digit follows. -/
def jsParseInt (s : String) : Option Int :=
  let cs := s.toList.dropWhile (fun c => c == ' ' || c == '\t' || c == '\n' || c == '\r')
  match cs with
  | '-' :: rest => (leadingDigitsVal rest).map (fun v => -(v : Int))
  | '+' :: rest => (leadingDigitsVal rest).map (fun v => (v : Int))
  | _ => (leadingDigitsVal cs).map (fun v => (v : Int))

/-- `partnerData[formData.partnerName]?.[formData.productDetails] || []`
(DataEntryForm.tsx:64, 86). -/
def entriesFor (partnerData : PartnerTable) (formData : PolicyData) :
    List PremiumEntry :=
  ((List.lookup formData.partnerName partnerData).bind
      (fun prods => List.lookup formData.productDetails prods)).getD []

/-- `DataEntryForm.handlePremiumChange` (DataEntryForm.tsx:61-77): parse the
selected value, look the entry up under the current partner and product
(`product?.find(p => p.Premium === premiumValue)`, `undefined` when the
partner or product is missing), and either auto-fill tenure and CSE name from
the entry or clear them.  The source's intermediate consts are inlined. -/
def handlePremiumChange (partnerData : PartnerTable) (value : String)
    (formData : PolicyData) : PolicyData :=
  match ((List.lookup formData.partnerName partnerData).bind
      (fun prods => List.lookup formData.productDetails prods)).bind
      (fun entries => entries.find? (fun p => jsParseInt value == some p.Premium)) with
  | some e =>
      { formData with premium := value, tenure := toString e.Tenure, cseName := e.cseName }
  | none =>
      { formData with premium := value, tenure := "", cseName := "" }

/-- `DataEntryForm.handlePartnerChange` (DataEntryForm.tsx:38-48): the select
is named `partnerName`, so `[name]: value` sets that field; the three derived
fields and the product are cleared. -/
def handlePartnerChange (value : String) (prev : PolicyData) : PolicyData :=
  { prev with partnerName := value, productDetails := "", premium := "",
              tenure := "", cseName := "" }

/-- `DataEntryForm.handleProductChange` (DataEntryForm.tsx:50-59): the select
is named `productDetails`; the derived fields are cleared. -/
def handleProductChange (value : String) (prev : PolicyData) : PolicyData :=
  { prev with productDetails := value, premium := "", tenure := "", cseName := "" }

/-- `DataEntryForm.productOptions` (DataEntryForm.tsx:85): with a truthy
(non-empty) partner, `Object.keys(partnerData[partner] || {})` mapped to
`{value, label}` pairs; `[]` otherwise. -/
def productOptions (partnerData : PartnerTable) (formData : PolicyData) :
    List (String × String) :=
  if formData.partnerName = "" then []
  else (((List.lookup formData.partnerName partnerData).getD []).map Prod.fst).map
      (fun p => (p, p))

/-- `DataEntryForm.premiumOptions` (DataEntryForm.tsx:86): with truthy partner
and product, the entry list mapped to `{value: p.Premium, label: "₹ p.Premium"}`;
`[]` otherwise. -/
def premiumOptions (partnerData : PartnerTable) (formData : PolicyData) :
    List (Int × String) :=
  if formData.partnerName ≠ "" ∧ formData.productDetails ≠ "" then
    (entriesFor partnerData formData).map
      (fun p => (p.Premium, "₹ " ++ toString p.Premium))
  else []

/-- C4: when the selected value parses to an integer `v` and the entry list
for the current partner and product has a (first) entry with `Premium = v`,
the handler fills tenure (stringified) and CSE name from that entry; when no
entry matches — including a missing partner or product — both are set to
empty strings.  The premium field itself receives the raw value in both
cases, and all other fields are unchanged (record update). -/
theorem c4_premium_autofill (partnerData : PartnerTable) (value : String)
    (formData : PolicyData) :
    (∀ v e, jsParseInt value = some v →
        (entriesFor partnerData formData).find? (fun p => v == p.Premium) = some e →
        handlePremiumChange partnerData value formData
          = { formData with premium := value, tenure := toString e.Tenure,
                            cseName := e.cseName })
    ∧ ((∀ v, jsParseInt value = some v →
          (entriesFor partnerData formData).find? (fun p => v == p.Premium) = none) →
        handlePremiumChange partnerData value formData
          = { formData with premium := value, tenure := "", cseName := "" }) := by
  have hbind : ((List.lookup formData.partnerName partnerData).bind
      (fun prods => List.lookup formData.productDetails prods)).bind
      (fun entries => entries.find? (fun p => jsParseInt value == some p.Premium))
      = (entriesFor partnerData formData).find?
          (fun p => jsParseInt value == some p.Premium) := by
    unfold entriesFor
    cases (List.lookup formData.partnerName partnerData).bind
        (fun prods => List.lookup formData.productDetails prods) <;> simp
  constructor
  · intro v e hv hfind
    have hpred : (fun p : PremiumEntry => jsParseInt value == some p.Premium)
        = (fun p : PremiumEntry => v == p.Premium) := by
      funext p
      rw [hv]
      simp
    unfold handlePremiumChange
    rw [hbind, hpred, hfind]
  · intro hnone
    cases hv : jsParseInt value with
    | none =>
        have hfind : (entriesFor partnerData formData).find?
            (fun p => jsParseInt value == some p.Premium) = none := by
          rw [List.find?_eq_none]
          intro x _
          rw [hv]
          simp
        unfold handlePremiumChange
        rw [hbind, hfind]
    | some v =>
        have hpred : (fun p : PremiumEntry => jsParseInt value == some p.Premium)
            = (fun p : PremiumEntry => v == p.Premium) := by
          funext p
          rw [hv]
          simp
        unfold handlePremiumChange
        rw [hbind, hpred, hnone v hv]

/-- A concrete cascade table used to instantiate theorems with hypotheses. -/
def sampleTable : PartnerTable :=
  [("P1", [("Prod1", [⟨500, 1, "Asha"⟩, ⟨1000, 2, "Vikram"⟩])])]

/-- C4 witness: in `sampleTable`, selecting premium `"500"` for partner `P1`
and product `Prod1` fills tenure `1` and CSE name `Asha`. -/
theorem c4_premium_autofill_witness :
    handlePremiumChange sampleTable "500" samplePolicy
      = { samplePolicy with premium := "500", tenure := toString (1 : Int),
                            cseName := "Asha" } :=
  (c4_premium_autofill sampleTable "500" samplePolicy).1 500 ⟨500, 1, "Asha"⟩
    (by decide) (by decide)

/-- C5: the product dropdown offers exactly the product keys of the table
under the selected partner (none when no partner is selected), and the
premium dropdown offers exactly the premium entries under the selected
partner and product (none when either is unselected). -/
theorem c5_dropdown_options (partnerData : PartnerTable) (formData : PolicyData) :
    (formData.partnerName = "" → productOptions partnerData formData = [])
    ∧ (formData.partnerName ≠ "" →
        (productOptions partnerData formData).map Prod.fst
          = ((List.lookup formData.partnerName partnerData).getD []).map Prod.fst)
    ∧ (formData.partnerName = "" ∨ formData.productDetails = "" →
        premiumOptions partnerData formData = [])
    ∧ (formData.partnerName ≠ "" → formData.productDetails ≠ "" →
        (premiumOptions partnerData formData).map Prod.fst
          = (entriesFor partnerData formData).map PremiumEntry.Premium) := by
  refine ⟨?_, ?_, ?_, ?_⟩
  · intro h
    simp [productOptions, h]
  · intro h
    simp [productOptions, h]
  · intro h
    rcases h with h | h <;> simp [premiumOptions, h]
  · intro h1 h2
    simp [premiumOptions, h1, h2]

/-- C5 witness: with partner `P1` and product `Prod1` selected in
`sampleTable`, the product options are the keys under `P1` and the premium
options are the premiums of the entry list. -/
theorem c5_dropdown_options_witness :
    (productOptions sampleTable samplePolicy).map Prod.fst
      = ((List.lookup samplePolicy.partnerName sampleTable).getD []).map Prod.fst
    ∧ (premiumOptions sampleTable samplePolicy).map Prod.fst
      = (entriesFor sampleTable samplePolicy).map PremiumEntry.Premium := by
  obtain ⟨-, h2, -, h4⟩ := c5_dropdown_options sampleTable samplePolicy
  exact ⟨h2 (by decide), h4 (by decide) (by decide)⟩

/-- C9: changing the partner sets the partner field to the new value, clears
product details, premium, tenure and CSE name, and leaves all 19 remaining
fields unchanged; changing the product sets the product field, clears
premium, tenure and CSE name, and leaves all 20 remaining fields (the partner
included) unchanged. -/
theorem c9_cascade_frame (value : String) (fd : PolicyData) :
    ((handlePartnerChange value fd).partnerName = value
     ∧ (handlePartnerChange value fd).productDetails = ""
     ∧ (handlePartnerChange value fd).premium = ""
     ∧ (handlePartnerChange value fd).tenure = ""
     ∧ (handlePartnerChange value fd).cseName = ""
     ∧ (handlePartnerChange value fd).id = fd.id
     ∧ (handlePartnerChange value fd).branchName = fd.branchName
     ∧ (handlePartnerChange value fd).branchCode = fd.branchCode
     ∧ (handlePartnerChange value fd).region = fd.region
     ∧ (handlePartnerChange value fd).customerName = fd.customerName
     ∧ (handlePartnerChange value fd).gender = fd.gender
     ∧ (handlePartnerChange value fd).dateOfBirth = fd.dateOfBirth
     ∧ (handlePartnerChange value fd).mobileNumber = fd.mobileNumber
     ∧ (handlePartnerChange value fd).customerId = fd.customerId
     ∧ (handlePartnerChange value fd).enrolmentDate = fd.enrolmentDate
     ∧ (handlePartnerChange value fd).savingsAccountNumber = fd.savingsAccountNumber
     ∧ (handlePartnerChange value fd).csbCode = fd.csbCode
     ∧ (handlePartnerChange value fd).d2cRoCode = fd.d2cRoCode
     ∧ (handlePartnerChange value fd).nomineeName = fd.nomineeName
     ∧ (handlePartnerChange value fd).nomineeDateOfBirth = fd.nomineeDateOfBirth
     ∧ (handlePartnerChange value fd).nomineeRelationship = fd.nomineeRelationship
     ∧ (handlePartnerChange value fd).nomineeMobileNumber = fd.nomineeMobileNumber
     ∧ (handlePartnerChange value fd).nomineeGender = fd.nomineeGender
     ∧ (handlePartnerChange value fd).remarks = fd.remarks)
    ∧ ((handleProductChange value fd).productDetails = value
     ∧ (handleProductChange value fd).premium = ""
     ∧ (handleProductChange value fd).tenure = ""
     ∧ (handleProductChange value fd).cseName = ""
     ∧ (handleProductChange value fd).partnerName = fd.partnerName
     ∧ (handleProductChange value fd).id = fd.id
     ∧ (handleProductChange value fd).branchName = fd.branchName
     ∧ (handleProductChange value fd).branchCode = fd.branchCode
     ∧ (handleProductChange value fd).region = fd.region
     ∧ (handleProductChange value fd).customerName = fd.customerName
     ∧ (handleProductChange value fd).gender = fd.gender
     ∧ (handleProductChange value fd).dateOfBirth = fd.dateOfBirth
     ∧ (handleProductChange value fd).mobileNumber = fd.mobileNumber
     ∧ (handleProductChange value fd).customerId = fd.customerId
     ∧ (handleProductChange value fd).enrolmentDate = fd.enrolmentDate
     ∧ (handleProductChange value fd).savingsAccountNumber = fd.savingsAccountNumber
     ∧ (handleProductChange value fd).csbCode = fd.csbCode
     ∧ (handleProductChange value fd).d2cRoCode = fd.d2cRoCode
     ∧ (handleProductChange value fd).nomineeName = fd.nomineeName
     ∧ (handleProductChange value fd).nomineeDateOfBirth = fd.nomineeDateOfBirth
     ∧ (handleProductChange value fd).nomineeRelationship = fd.nomineeRelationship
     ∧ (handleProductChange value fd).nomineeMobileNumber = fd.nomineeMobileNumber
     ∧ (handleProductChange value fd).nomineeGender = fd.nomineeGender
     ∧ (handleProductChange value fd).remarks = fd.remarks) := by
  refine ⟨?_, ?_⟩ <;> and_intros <;> rfl

/-! ### Saving (`App.handleSavePolicy`) and submitting (`DataEntryForm.handleSubmit`) -/

/-- `App.handleSavePolicy` (App.tsx:163-172): replace every stored record
whose id matches, else append. -/
def handleSavePolicy (policyData : PolicyData) (prevPolicies : List PolicyData) :
    List PolicyData :=
  if prevPolicies.any (fun p => p.id == policyData.id) then
    prevPolicies.map (fun p => if p.id = policyData.id then policyData else p)
  else prevPolicies ++ [policyData]

/-- C6: saving is an upsert on the whole list.  When some stored record has
the same id, the result keeps the length and order, replaces each position
holding that id with the new record and leaves every other position
untouched; otherwise the record is appended at the end. -/
theorem c6_save_upsert (r : PolicyData) (prev : List PolicyData) :
    ((∃ p ∈ prev, p.id = r.id) →
      (handleSavePolicy r prev).length = prev.length
      ∧ ∀ i : Nat, (handleSavePolicy r prev)[i]?
          = (prev[i]?).map (fun p => if p.id = r.id then r else p))
    ∧ ((∀ p ∈ prev, p.id ≠ r.id) → handleSavePolicy r prev = prev ++ [r]) := by
  constructor
  · rintro ⟨p, hp, hpid⟩
    have hany : prev.any (fun q => q.id == r.id) = true := by
      rw [List.any_eq_true]
      exact ⟨p, hp, by simp [hpid]⟩
    unfold handleSavePolicy
    rw [if_pos hany]
    exact ⟨List.length_map _ _, fun i => List.getElem?_map _ _ _⟩
  · intro h
    have hany : prev.any (fun q => q.id == r.id) = false := by
      rw [List.any_eq_false]
      intro q hq
      simp [h q hq]
    unfold handleSavePolicy
    rw [if_neg (by simp [hany])]

/-- C6 witness: replacing the only record (same id) keeps length 1 and maps
position 0 to the new record; a record with a fresh id is appended. -/
theorem c6_save_upsert_witness :
    ((handleSavePolicy { samplePolicy with customerName := "Ravi K" } [samplePolicy]).length = 1
     ∧ ∀ i : Nat, (handleSavePolicy { samplePolicy with customerName := "Ravi K" } [samplePolicy])[i]?
         = ([samplePolicy][i]?).map
             (fun p => if p.id = ({ samplePolicy with customerName := "Ravi K" } : PolicyData).id
                       then { samplePolicy with customerName := "Ravi K" } else p))
    ∧ handleSavePolicy { samplePolicy with id := "fresh" } [samplePolicy]
        = [samplePolicy] ++ [{ samplePolicy with id := "fresh" }] := by
  constructor
  · exact (c6_save_upsert { samplePolicy with customerName := "Ravi K" } [samplePolicy]).1
      ⟨samplePolicy, by simp, rfl⟩
  · exact (c6_save_upsert { samplePolicy with id := "fresh" } [samplePolicy]).2
      (by intro p hp; simp at hp; subst hp; decide)

/-! ### Autofill (`App.tsx` `ImageManager.handleAutofill` and the `App` callback) -/

/-- `DataEntryForm.emptyForm` (DataEntryForm.tsx:13-20); also stands in for
the base object of the autofill callback, whose JS-`undefined` fields are
modelled as `""`. -/
def emptyForm : PolicyData :=
  { id := "", partnerName := "", productDetails := "", premium := "", tenure := "",
    cseName := "", branchName := "", branchCode := "", region := "", customerName := "",
    gender := "", dateOfBirth := "", mobileNumber := "", customerId := "",
    enrolmentDate := "", savingsAccountNumber := "", csbCode := "", d2cRoCode := "",
    nomineeName := "", nomineeDateOfBirth := "", nomineeRelationship := "",
    nomineeMobileNumber := "", nomineeGender := "", remarks := "" }

/-- The fields the autofill response schema may return (App.tsx:90-110);
`none` models a property the service left `undefined`. -/
structure AutofillData where
  customerName : Option String := none
  dateOfBirth : Option String := none
  mobileNumber : Option String := none
  partnerName : Option String := none
  productDetails : Option String := none
  premium : Option String := none
  branchName : Option String := none
  branchCode : Option String := none
  region : Option String := none
  gender : Option String := none
  customerId : Option String := none
  enrolmentDate : Option String := none
  savingsAccountNumber : Option String := none
  nomineeName : Option String := none
  nomineeDateOfBirth : Option String := none
  nomineeRelationship : Option String := none
deriving DecidableEq, Repr

/-- The `App.handleAutofill` callback (App.tsx:198-204): spread the previous
policy (or the base object) first, overwrite with the extracted fields, and
keep the previous id (`prev?.id || ''`). -/
def applyAutofill (prev : Option PolicyData) (data : AutofillData) : PolicyData :=
  let base := prev.getD emptyForm
  { base with
    customerName := data.customerName.getD base.customerName
    dateOfBirth := data.dateOfBirth.getD base.dateOfBirth
    mobileNumber := data.mobileNumber.getD base.mobileNumber
    partnerName := data.partnerName.getD base.partnerName
    productDetails := data.productDetails.getD base.productDetails
    premium := data.premium.getD base.premium
    branchName := data.branchName.getD base.branchName
    branchCode := data.branchCode.getD base.branchCode
    region := data.region.getD base.region
    gender := data.gender.getD base.gender
    customerId := data.customerId.getD base.customerId
    enrolmentDate := data.enrolmentDate.getD base.enrolmentDate
    savingsAccountNumber := data.savingsAccountNumber.getD base.savingsAccountNumber
    nomineeName := data.nomineeName.getD base.nomineeName
    nomineeDateOfBirth := data.nomineeDateOfBirth.getD base.nomineeDateOfBirth
    nomineeRelationship := data.nomineeRelationship.getD base.nomineeRelationship
    id := (prev.map PolicyData.id).getD "" }

/-- The app state the autofill path can touch: the stored list and the form's
current policy. -/
structure AppState where
  policies : List PolicyData
  currentPolicy : Option PolicyData
deriving DecidableEq, Repr

/-- The distinct outcomes of the autofill attempt: the three failure modes
(App.tsx:76-77 missing key, the request rejecting, App.tsx:114 JSON parse
failing) all land in the single `catch` (App.tsx:117-119). -/
inductive AutofillOutcome
  | missingApiKey
  | requestError
  | unparseableResponse
  | parsed (data : AutofillData)
deriving DecidableEq, Repr

/-- `ImageManager.handleAutofill` (App.tsx:66-123) combined with the callback
it invokes on success: returns the new app state and the displayed error
message.  With no file selected it returns early with a prompt; any failure
only records the fixed error text; success clears the error and applies the
extracted data to the current policy. -/
def handleAutofill (hasFile : Bool) (outcome : AutofillOutcome) (st : AppState) :
    AppState × String :=
  if !hasFile then (st, "Please select an image file first.")
  else
    match outcome with
    | .parsed data =>
        ({ st with currentPolicy := some (applyAutofill st.currentPolicy data) }, "")
    | _ => (st, "Failed to extract data. Please check the image or try again.")

/-- C7: every autofill failure — missing API key, request error, unparseable
response — takes the single catch path: the stored policy list and the form's
current policy are unchanged and the only effect is the fixed error message;
no field is partially applied. -/
theorem c7_autofill_failure_only_sets_error (outcome : AutofillOutcome)
    (st : AppState)
    (h : outcome = AutofillOutcome.missingApiKey ∨ outcome = AutofillOutcome.requestError
         ∨ outcome = AutofillOutcome.unparseableResponse) :
    (handleAutofill true outcome st).1.policies = st.policies
    ∧ (handleAutofill true outcome st).1.currentPolicy = st.currentPolicy
    ∧ (handleAutofill true outcome st).2
        = "Failed to extract data. Please check the image or try again." := by
  rcases h with h | h | h <;> subst h <;> exact ⟨rfl, rfl, rfl⟩

/-- C7 witness: a missing API key with one stored record leaves the state
unchanged and sets the error text. -/
theorem c7_autofill_failure_witness :
    (handleAutofill true AutofillOutcome.missingApiKey
        ⟨[samplePolicy], none⟩).1.policies = [samplePolicy]
    ∧ (handleAutofill true AutofillOutcome.missingApiKey
        ⟨[samplePolicy], none⟩).1.currentPolicy = none
    ∧ (handleAutofill true AutofillOutcome.missingApiKey
        ⟨[samplePolicy], none⟩).2
        = "Failed to extract data. Please check the image or try again." :=
  c7_autofill_failure_only_sets_error AutofillOutcome.missingApiKey
    ⟨[samplePolicy], none⟩ (Or.inl rfl)

/-! ### CSV export (`DataTable.exportToCSV`) -/

/-- Lower-case hexadecimal digit, as `JSON.stringify` emits in `\uXXXX`. -/
def hexDigit (n : Nat) : Char :=
  if n < 10 then Char.ofNat (48 + n) else Char.ofNat (97 + (n - 10))

/-- Escaping of one character inside a JSON string literal, as
`JSON.stringify` performs on a string value. -/
def jsonEscapeChar (c : Char) : String :=
  if c = '"' then "\\\""
  else if c = '\\' then "\\\\"
  else if c = Char.ofNat 8 then "\\b"
  else if c = '\t' then "\\t"
  else if c = '\n' then "\\n"
  else if c = Char.ofNat 12 then "\\f"
  else if c = '\r' then "\\r"
  else if c.toNat < 32 then
    "\\u00" ++ String.mk [hexDigit (c.toNat / 16), hexDigit (c.toNat % 16)]
  else String.mk [c]

/-- `JSON.stringify` of a string value.  The replacer in DataTable.tsx:15
only rewrites `null` to `''`, and no policy field is ever `null`, so it is
the identity here. -/
def jsonStringify (s : String) : String :=
  "\"" ++ String.join (s.toList.map jsonEscapeChar) ++ "\""

/-- One CSV data line (DataTable.tsx:15): the record's values in header
order, each JSON-stringified, joined with commas. -/
def csvRow (row : PolicyData) : String :=
  String.intercalate "," (policyKeys.map (fun header => jsonStringify (policyGet row header)))

/-- `exportToCSV` (DataTable.tsx:11-16).  On an empty list
`Object.keys(data[0])` evaluates `Object.keys(undefined)` and throws a
`TypeError` before any CSV text exists, modelled as `none`; otherwise the
header line (`Object.keys` of the first record) and one line per record,
joined with newlines. -/
def exportToCSV (data : List PolicyData) : Option String :=
  match data with
  | [] => none
  | _ :: _ =>
      some (String.intercalate "\n"
        (String.intercalate "," policyKeys :: data.map csvRow))

/-- C8 counterexample: on the empty list the export produces no CSV text at
all — the code throws on `Object.keys(data[0])` — contradicting the claim
that the empty list also serializes to a header line. -/
theorem c8_export_empty_counterexample : exportToCSV [] = none := rfl

/-- C8 amended: for every NON-empty list of policy records, the CSV export
serializes the list to one header line of the record's field names followed
by one line per record holding that record's (JSON-stringified) field values
in the same field order; on the empty list the export throws and produces no
CSV text. -/
theorem c8_export_nonempty (data : List PolicyData) (h : data ≠ []) :
    exportToCSV data
      = some (String.intercalate "\n"
          (String.intercalate "," policyKeys :: data.map csvRow)) := by
  cases data with
  | nil => exact absurd rfl h
  | cons a l => rfl

/-- C8 witness: the export of a one-record list. -/
theorem c8_export_nonempty_witness :
    exportToCSV [samplePolicy]
      = some (String.intercalate "\n"
          (String.intercalate "," policyKeys :: [samplePolicy].map csvRow)) :=
  c8_export_nonempty [samplePolicy] (by simp)

/-! ### Submit (`DataEntryForm.handleSubmit`) and the id invariant -/

/-- A JS `Date` instant, decomposed into its UTC components. -/
structure JsDate where
  year : Nat
  month : Nat
  day : Nat
  hour : Nat
  minute : Nat
  second : Nat
  millisecond : Nat
deriving DecidableEq, Repr

/-- Zero-padding of a number to a given width. -/
def padNum (width n : Nat) : String :=
  String.mk (List.replicate (width - (toString n).length) '0') ++ toString n

/-- `Date.prototype.toISOString`: `YYYY-MM-DDTHH:mm:ss.sssZ`. -/
def toISOString (d : JsDate) : String :=
  padNum 4 d.year ++ "-" ++ padNum 2 d.month ++ "-" ++ padNum 2 d.day ++ "T"
    ++ padNum 2 d.hour ++ ":" ++ padNum 2 d.minute ++ ":" ++ padNum 2 d.second
    ++ "." ++ padNum 3 d.millisecond ++ "Z"

theorem toISOString_ne_empty (d : JsDate) : toISOString d ≠ "" := by
  intro h
  have hlen := congrArg String.length h
  rw [toISOString] at hlen
  simp [String.length_append] at hlen
  have hz : ("Z" : String).length = 0 := hlen.2
  exact absurd hz (by decide)

/-- `DataEntryForm.handleSubmit` (DataEntryForm.tsx:79-83): the record is
saved with `id: formData.id || new Date().toISOString()` (keep a truthy id,
otherwise a fresh ISO timestamp of the current instant `now`). -/
def handleSubmit (now : JsDate) (formData : PolicyData) : PolicyData :=
  { formData with id := if formData.id = "" then toISOString now else formData.id }

/-- C10: the record the form submits always carries a non-empty id — an
existing non-empty id is kept, an empty one is replaced by the ISO timestamp
— and saving such a record into a list whose ids are all non-empty keeps
every stored id non-empty. -/
theorem c10_submitted_id_nonempty (now : JsDate) (formData : PolicyData) :
    (handleSubmit now formData).id ≠ ""
    ∧ (formData.id ≠ "" → (handleSubmit now formData).id = formData.id)
    ∧ (formData.id = "" → (handleSubmit now formData).id = toISOString now)
    ∧ ∀ prev : List PolicyData, (∀ p ∈ prev, p.id ≠ "") →
        ∀ q ∈ handleSavePolicy (handleSubmit now formData) prev, q.id ≠ "" := by
  have hid : (handleSubmit now formData).id ≠ "" := by
    show (if formData.id = "" then toISOString now else formData.id) ≠ ""
    split
    · exact toISOString_ne_empty now
    · assumption
  refine ⟨hid, ?_, ?_, ?_⟩
  · intro h
    show (if formData.id = "" then toISOString now else formData.id) = formData.id
    rw [if_neg h]
  · intro h
    show (if formData.id = "" then toISOString now else formData.id) = toISOString now
    rw [if_pos h]
  · intro prev hprev q hq
    unfold handleSavePolicy at hq
    split at hq
    · rw [List.mem_map] at hq
      obtain ⟨p, hp, rfl⟩ := hq
      by_cases hc : p.id = (handleSubmit now formData).id
      · rw [if_pos hc]
        exact hid
      · rw [if_neg hc]
        exact hprev p hp
    · rw [List.mem_append] at hq
      rcases hq with h | h
      · exact hprev q h
      · rw [List.mem_singleton] at h
        subst h
        exact hid

/-- C10 witness: a concrete instant and form state with an empty id get the
timestamp as id; a non-empty id is kept; saving into the empty store keeps
all ids non-empty. -/
theorem c10_submitted_id_nonempty_witness :
    (handleSubmit ⟨2024, 1, 1, 0, 0, 0, 0⟩ emptyForm).id
        = toISOString ⟨2024, 1, 1, 0, 0, 0, 0⟩
    ∧ (handleSubmit ⟨2024, 1, 1, 0, 0, 0, 0⟩ samplePolicy).id = samplePolicy.id
    ∧ ∀ q ∈ handleSavePolicy (handleSubmit ⟨2024, 1, 1, 0, 0, 0, 0⟩ emptyForm) [],
        q.id ≠ "" := by
  refine ⟨?_, ?_, ?_⟩
  · exact (c10_submitted_id_nonempty ⟨2024, 1, 1, 0, 0, 0, 0⟩ emptyForm).2.2.1 rfl
  · exact (c10_submitted_id_nonempty ⟨2024, 1, 1, 0, 0, 0, 0⟩ samplePolicy).2.1 (by decide)
  · exact (c10_submitted_id_nonempty ⟨2024, 1, 1, 0, 0, 0, 0⟩ emptyForm).2.2.2 []
      (by intro p hp; simp at hp)

end Mswasth
